import Mathlib

/-!
Shallow embedding of `pl_bolts/models/autoencoders/basic_ae/basic_ae_module.py`
(the `AE` LightningModule and its `cli_main` entry point), together with
theorems settling the specification claims about it.

External pieces referenced by the module but defined outside this file
(the resnet encoder/decoder builders from
`pl_bolts.models.autoencoders.components`, the data modules from
`pl_bolts.datamodules`, torch's `F.mse_loss`, and argparse) are modelled
as opaque symbolic values or small faithful functions, documented at each
definition.
-/

namespace BasicAE

/-- Modelled from the spec: the externally supplied network builders
(`resnet18_encoder`, `resnet18_decoder`, `resnet50_encoder`,
`resnet50_decoder` from `pl_bolts.models.autoencoders.components`, and
torch's `nn.Linear`) live outside this file; a built sub-network is
represented symbolically by its builder and the arguments it was built
with. -/
inductive Network where
  | resnet18_encoder (first_conv maxpool1 : Bool)
  | resnet50_encoder (first_conv maxpool1 : Bool)
  | resnet18_decoder (latent_dim input_height : Int) (first_conv maxpool1 : Bool)
  | resnet50_decoder (latent_dim input_height : Int) (first_conv maxpool1 : Bool)
  | linear (in_features out_features : Int)
  deriving DecidableEq, Repr

/-- A tensor-valued expression: an input tensor or the application of a
sub-network to a tensor expression.  Used to trace which networks the
module applies to a batch, in which order. -/
inductive TensorExpr where
  | var (name : String)
  | app (net : Network) (arg : TensorExpr)
  deriving DecidableEq, Repr

/-- A loss-valued expression: the call `F.mse_loss(input, target,
reduction=...)` with its arguments recorded. -/
inductive LossExpr where
  | mse_loss (input target : TensorExpr) (reduction : String)
  deriving DecidableEq, Repr

/-- Modelled from the spec: torch's `F.mse_loss` is external; with
`reduction = "mean"` it returns the mean of the elementwise squared
differences, with `reduction = "sum"` their sum. -/
def F_mse_loss (input target : List ℚ) (reduction : String) : ℚ :=
  let sq := List.zipWith (fun a b => (a - b) ^ 2) input target
  if reduction = "mean" then sq.sum / sq.length else sq.sum

/-- Evaluate a tensor expression under an interpretation of the external
networks and an environment for the input tensors. -/
def TensorExpr.eval (interp : Network → List ℚ → List ℚ) (env : String → List ℚ) :
    TensorExpr → List ℚ
  | .var name => env name
  | .app net arg => interp net (TensorExpr.eval interp env arg)

/-- Evaluate a loss expression under an interpretation and environment. -/
def LossExpr.eval (interp : Network → List ℚ → List ℚ) (env : String → List ℚ) :
    LossExpr → ℚ
  | .mse_loss input target reduction =>
      F_mse_loss (input.eval interp env) (target.eval interp env) reduction

/-- The arguments of `AE.__init__`, captured into `self.hparams` by the
`self.save_hyperparameters()` call. -/
structure Hyperparams where
  input_height : Int
  enc_type : String
  first_conv : Bool
  maxpool1 : Bool
  enc_out_dim : Int
  kl_coeff : ℚ
  latent_dim : Int
  lr : ℚ
  deriving DecidableEq, Repr

/-- The `AE` model object after `__init__` has run: the stored
hyperparameters, the attributes assigned in `__init__`, and the three
built sub-networks. -/
structure AE where
  hparams : Hyperparams
  lr : ℚ
  enc_out_dim : Int
  latent_dim : Int
  input_height : Int
  encoder : Network
  decoder : Network
  fc : Network
  deriving DecidableEq, Repr

/-- `AE.pretrained_urls` (class attribute): the registry of pretrained
checkpoints, as an association list preserving the dict. -/
def AE.pretrained_urls : List (String × String) :=
  [("cifar10-resnet18",
    "https://pl-bolts-weights.s3.us-east-2.amazonaws.com/ae/ae-cifar10/checkpoints/epoch%3D96.ckpt")]

/-- The `valid_encoders` dict built inside `AE.__init__`: each name maps
to its encoder builder and decoder builder. -/
def valid_encoders :
    List (String × ((Bool → Bool → Network) × (Int → Int → Bool → Bool → Network))) :=
  [("resnet18", (Network.resnet18_encoder, Network.resnet18_decoder)),
   ("resnet50", (Network.resnet50_encoder, Network.resnet50_decoder))]

/-- `AE.__init__`: stores the hyperparameters, the attributes `lr`,
`enc_out_dim`, `latent_dim`, `input_height`, then builds the encoder and
decoder (falling back to resnet18 when `enc_type` is not a key of
`valid_encoders`) and the linear projection `fc`.  Defaults follow the
Python signature. -/
def AE.init (input_height : Int) (enc_type : String := "resnet18")
    (first_conv : Bool := false) (maxpool1 : Bool := false)
    (enc_out_dim : Int := 512) (kl_coeff : ℚ := 1/10) (latent_dim : Int := 256)
    (lr : ℚ := 1/10000) : AE :=
  let hparams : Hyperparams :=
    ⟨input_height, enc_type, first_conv, maxpool1, enc_out_dim, kl_coeff, latent_dim, lr⟩
  let builders :=
    match valid_encoders.lookup enc_type with
    | none => (Network.resnet18_encoder, Network.resnet18_decoder)
    | some b => b
  { hparams := hparams
    lr := lr
    enc_out_dim := enc_out_dim
    latent_dim := latent_dim
    input_height := input_height
    encoder := builders.1 first_conv maxpool1
    decoder := builders.2 latent_dim input_height first_conv maxpool1
    fc := Network.linear enc_out_dim latent_dim }

/-- The Python errors this module raises explicitly. -/
inductive PyError where
  | keyError (msg : String)
  | valueError (msg : String)
  deriving DecidableEq, Repr

/-- The effect of `self.load_from_checkpoint(url, strict=False)`: loading
a checkpoint from a URL (the loading itself is the external framework's). -/
structure LoadCheckpoint where
  url : String
  strict : Bool
  deriving DecidableEq, Repr

/-- `AE.pretrained_weights_available`: the list of keys of
`AE.pretrained_urls`. -/
def AE.pretrained_weights_available : List String :=
  AE.pretrained_urls.map Prod.fst

/-- `AE.from_pretrained`: raises `KeyError` when the name is not in
`AE.pretrained_urls`, otherwise loads from the mapped URL with
`strict=False`. -/
def AE.from_pretrained (checkpoint_name : String) : Except PyError LoadCheckpoint :=
  match AE.pretrained_urls.lookup checkpoint_name with
  | none => .error (.keyError (checkpoint_name ++ " not present in pretrained weights."))
  | some url => .ok ⟨url, false⟩

/-- `AE.forward`: `return self.decoder(z)`. -/
def AE.forward (self : AE) (z : TensorExpr) : TensorExpr :=
  TensorExpr.app self.decoder z

/-- `AE.step`: unpacks the batch into `(x, y)`, applies encoder, `fc`,
decoder to `x`, computes the mean-reduction MSE loss against `x`, and
returns the loss with the log dict `{"loss": loss}`. -/
def AE.step (self : AE) (batch : TensorExpr × TensorExpr) (batch_idx : Int) :
    LossExpr × List (String × LossExpr) :=
  let x := batch.1
  let feats := TensorExpr.app self.encoder x
  let z := TensorExpr.app self.fc feats
  let x_hat := TensorExpr.app self.decoder z
  let loss := LossExpr.mse_loss x_hat x "mean"
  (loss, [("loss", loss)])

/-- The `pl.TrainResult` built by `training_step`. -/
structure TrainResult where
  minimize : LossExpr
  logs : List (String × LossExpr)
  on_step : Bool
  on_epoch : Bool
  deriving DecidableEq, Repr

/-- The `pl.EvalResult` built by `validation_step`. -/
structure EvalResult where
  checkpoint_on : LossExpr
  logs : List (String × LossExpr)
  deriving DecidableEq, Repr

/-- `AE.training_step`: runs `step` and logs each entry under a
`train_`-prefixed key, on step and not on epoch. -/
def AE.training_step (self : AE) (batch : TensorExpr × TensorExpr) (batch_idx : Int) :
    TrainResult :=
  let r := self.step batch batch_idx
  { minimize := r.1
    logs := r.2.map (fun kv => ("train_" ++ kv.1, kv.2))
    on_step := true
    on_epoch := false }

/-- `AE.validation_step`: runs `step` and logs each entry under a
`val_`-prefixed key. -/
def AE.validation_step (self : AE) (batch : TensorExpr × TensorExpr) (batch_idx : Int) :
    EvalResult :=
  let r := self.step batch batch_idx
  { checkpoint_on := r.1
    logs := r.2.map (fun kv => ("val_" ++ kv.1, kv.2)) }

/-- The optimizer returned by `configure_optimizers`: torch's Adam over
the model's parameters with a learning rate. -/
inductive Optimizer where
  | adam (params : List Network) (lr : ℚ)
  deriving DecidableEq, Repr

/-- `self.parameters()`: the learnable sub-modules in registration order
(`self.encoder`, `self.decoder`, `self.fc` are assigned in that order in
`__init__`). -/
def AE.parameters (self : AE) : List Network :=
  [self.encoder, self.decoder, self.fc]

/-- `AE.configure_optimizers`: `torch.optim.Adam(self.parameters(), lr=self.lr)`. -/
def AE.configure_optimizers (self : AE) : Optimizer :=
  Optimizer.adam self.parameters self.lr

end BasicAE

namespace BasicAE

/-- The default value an argparse argument is registered with. -/
inductive ArgDefault where
  | str (v : String)
  | float (v : ℚ)
  | int (v : Int)
  | storeTrue
  deriving DecidableEq, Repr

/-- One `parser.add_argument(...)` registration: the flag name and its
default. -/
structure ArgSpec where
  name : String
  default : ArgDefault
  deriving DecidableEq, Repr

/-- `AE.add_model_specific_args`: extends the parent argument list with
the module's arguments, in source order, with the source defaults. -/
def AE.add_model_specific_args (parent : List ArgSpec) : List ArgSpec :=
  parent ++
    [⟨"--enc_type", .str "resnet18"⟩,
     ⟨"--first_conv", .storeTrue⟩,
     ⟨"--maxpool1", .storeTrue⟩,
     ⟨"--lr", .float (1/10000)⟩,
     ⟨"--enc_out_dim", .int 512⟩,
     ⟨"--latent_dim", .int 256⟩,
     ⟨"--batch_size", .int 256⟩,
     ⟨"--num_workers", .int 8⟩,
     ⟨"--data_dir", .str "."⟩,
     ⟨"--gpus", .int 1⟩,
     ⟨"--max_epochs", .int 200⟩,
     ⟨"--max_steps", .int (-1)⟩,
     ⟨"--fast_dev_run", .storeTrue⟩]

/-- Modelled from the spec: argparse is external.  The value of an
optional argument is the value token following its last occurrence on
the command line (also accepting the `--flag=value` form); absent, the
registered default applies. -/
def lastFlagValue (flag : String) : List String → Option String
  | [] => none
  | a :: rest =>
    match lastFlagValue flag rest with
    | some v => some v
    | none =>
      if a = flag then rest.head?
      else if ((flag ++ "=").data.isPrefixOf a.data) then
        some (String.mk (a.data.drop (flag.data.length + 1)))
      else none

/-- Modelled from the spec: an argparse `store_true` flag is true when
present on the command line. -/
def hasFlag (flag : String) (args : List String) : Bool :=
  args.contains flag

/-- Parse a `type=str` argument with its default. -/
def parse_str (flag dflt : String) (args : List String) : String :=
  (lastFlagValue flag args).getD dflt

/-- Read a nonempty run of decimal digits as a number. -/
def natOfDigits? : List Char → Nat → Option Nat
  | [], acc => some acc
  | c :: rest, acc =>
    if c.isDigit then natOfDigits? rest (10 * acc + (c.toNat - 48)) else none

/-- Modelled from the spec: Python's `int()` conversion applied by
argparse to a `type=int` argument value — an optional sign followed by
decimal digits. -/
def intOfString? (s : String) : Option Int :=
  match s.data with
  | [] => none
  | '-' :: rest =>
    if rest.isEmpty then none else (natOfDigits? rest 0).map (fun n => -(n : Int))
  | '+' :: rest =>
    if rest.isEmpty then none else (natOfDigits? rest 0).map (fun n => (n : Int))
  | cs => (natOfDigits? cs 0).map (fun n => (n : Int))

/-- Parse a `type=int` argument with its default. -/
def parse_int (flag : String) (dflt : Int) (args : List String) : Int :=
  ((lastFlagValue flag args).bind intOfString?).getD dflt

/-- Modelled from the spec: Python's float literal syntax, restricted to
the decimal forms used here (optional sign, digits, optional fraction,
optional exponent), read as an exact rational. -/
def ratOfString? (s : String) : Option ℚ :=
  let readMantissa (m : String) : Option ℚ :=
    match m.split (fun c => c = '.') with
    | [i] => (i.toNat? ).map (fun n => (n : ℚ))
    | [i, f] =>
      match i.toNat?, f.toNat? with
      | some ni, some nf => some ((ni : ℚ) + (nf : ℚ) / (10 : ℚ) ^ f.length)
      | _, _ => none
    | _ => none
  let readSigned (m : String) : Option ℚ :=
    if "-".isPrefixOf m then (readMantissa (m.drop 1)).map Neg.neg
    else if "+".isPrefixOf m then readMantissa (m.drop 1)
    else readMantissa m
  match s.split (fun c => c = 'e' || c = 'E') with
  | [m] => readSigned m
  | [m, ex] =>
    match readSigned m, ex.toInt? with
    | some q, some e => some (q * (10 : ℚ) ^ e)
    | _, _ => none
  | _ => none

/-- Parse a `type=float` argument with its default. -/
def parse_float (flag : String) (dflt : ℚ) (args : List String) : ℚ :=
  ((lastFlagValue flag args).bind ratOfString?).getD dflt

/-- The `--dataset` value read by `parser.parse_known_args(args)` in
`cli_main` (default `"cifar10"`). -/
def parse_dataset (args : List String) : String :=
  parse_str "--dataset" "cifar10" args

/-- The parsed `--max_steps` value (default `-1`, per
`add_model_specific_args`). -/
def parse_max_steps (args : List String) : Int :=
  parse_int "--max_steps" (-1) args

/-- The full namespace produced by `parser.parse_args(args)` in
`cli_main`, after `AE.add_model_specific_args` has extended the parser. -/
structure ParsedArgs where
  dataset : String
  enc_type : String
  first_conv : Bool
  maxpool1 : Bool
  lr : ℚ
  enc_out_dim : Int
  latent_dim : Int
  batch_size : Int
  num_workers : Int
  data_dir : String
  gpus : Int
  max_epochs : Int
  max_steps : Int
  fast_dev_run : Bool
  deriving DecidableEq, Repr

/-- Parse every registered argument of `cli_main`'s parser from the
argument list, using the defaults of `add_model_specific_args`. -/
def parse_args (args : List String) : ParsedArgs :=
  { dataset := parse_dataset args
    enc_type := parse_str "--enc_type" "resnet18" args
    first_conv := hasFlag "--first_conv" args
    maxpool1 := hasFlag "--maxpool1" args
    lr := parse_float "--lr" (1/10000) args
    enc_out_dim := parse_int "--enc_out_dim" 512 args
    latent_dim := parse_int "--latent_dim" 256 args
    batch_size := parse_int "--batch_size" 256 args
    num_workers := parse_int "--num_workers" 8 args
    data_dir := parse_str "--data_dir" "." args
    gpus := parse_int "--gpus" 1 args
    max_epochs := parse_int "--max_epochs" 200 args
    max_steps := parse_max_steps args
    fast_dev_run := hasFlag "--fast_dev_run" args }

/-- Modelled from the spec: the external data-module classes selected by
`cli_main` (`CIFAR10DataModule`, `STL10DataModule`, `ImagenetDataModule`
live in `pl_bolts.datamodules`, outside this file). -/
inductive DataModuleClass where
  | cifar10
  | stl10
  | imagenet
  deriving DecidableEq, Repr

/-- Modelled from the spec: `dm.size()` of the external data modules,
the (channels, height, width) of one image. -/
def DataModuleClass.size : DataModuleClass → List Int
  | .cifar10 => [3, 32, 32]
  | .stl10 => [3, 96, 96]
  | .imagenet => [3, 224, 224]

/-- The data module instantiated by `dm_cls.from_argparse_args(args)`. -/
structure DataModule where
  cls : DataModuleClass
  data_dir : String
  batch_size : Int
  num_workers : Int
  deriving DecidableEq, Repr

/-- The trainer built by `pl.Trainer.from_argparse_args(args)` (the
trainer-relevant parsed arguments; training itself is external). -/
structure Trainer where
  gpus : Int
  max_epochs : Int
  max_steps : Option Int
  fast_dev_run : Bool
  deriving DecidableEq, Repr

/-- The `(dm, model, trainer)` triple `cli_main` returns on success. -/
structure CliResult where
  dm : DataModule
  model : AE
  trainer : Trainer
  deriving DecidableEq, Repr

/-- The body of `cli_main` after the dataset dispatch has chosen
`dm_cls`: build the data module, set `args.input_height` from
`dm.size()[-1]`, rewrite `max_steps == -1` to `None`, construct the
model and the trainer. -/
def cli_main_rest (args : List String) (dm_cls : DataModuleClass) : CliResult :=
  let p := parse_args args
  let dm : DataModule := ⟨dm_cls, p.data_dir, p.batch_size, p.num_workers⟩
  let input_height := (DataModuleClass.size dm_cls).getLastD 0
  let max_steps : Option Int := if p.max_steps = -1 then none else some p.max_steps
  let model := AE.init input_height p.enc_type p.first_conv p.maxpool1
    p.enc_out_dim (1/10) p.latent_dim p.lr
  let trainer : Trainer := ⟨p.gpus, p.max_epochs, max_steps, p.fast_dev_run⟩
  ⟨dm, model, trainer⟩

/-- `cli_main`: parse `--dataset` with `parse_known_args`, dispatch on
its value (raising `ValueError` for an undefined dataset before
anything else is built), then run the rest of the pipeline. -/
def cli_main (args : List String) : Except PyError CliResult :=
  let d := parse_dataset args
  if d = "cifar10" then .ok (cli_main_rest args .cifar10)
  else if d = "stl10" then .ok (cli_main_rest args .stl10)
  else if d = "imagenet" then .ok (cli_main_rest args .imagenet)
  else .error (.valueError ("undefined dataset " ++ d))

/-- C1: `AE.from_pretrained` raises a `KeyError` mentioning the name
exactly when the name is not a key of `AE.pretrained_urls`; when it is a
key, it instead loads from the mapped checkpoint URL (with
`strict=False`) and raises no lookup error. -/
theorem C1_from_pretrained_lookup (name : String) :
    ((∃ msg, AE.from_pretrained name = .error (.keyError msg) ∧
        msg = name ++ " not present in pretrained weights.") ↔
      AE.pretrained_urls.lookup name = none) ∧
    (∀ url, AE.pretrained_urls.lookup name = some url →
      AE.from_pretrained name = .ok ⟨url, false⟩) := by
  constructor
  · constructor
    · rintro ⟨msg, herr, -⟩
      cases h : AE.pretrained_urls.lookup name with
      | none => rfl
      | some url => simp [AE.from_pretrained, h] at herr
    · intro h
      exact ⟨_, by simp [AE.from_pretrained, h], rfl⟩
  · intro url h
    simp [AE.from_pretrained, h]

/-- Witness for C1 at concrete names: the registered name loads its URL,
an unregistered name gets the `KeyError`. -/
theorem C1_from_pretrained_lookup_witness :
    AE.from_pretrained "cifar10-resnet18" =
      .ok ⟨"https://pl-bolts-weights.s3.us-east-2.amazonaws.com/ae/ae-cifar10/checkpoints/epoch%3D96.ckpt",
        false⟩ ∧
    (∃ msg, AE.from_pretrained "resnet50-imagenet" = .error (.keyError msg) ∧
      msg = "resnet50-imagenet" ++ " not present in pretrained weights.") :=
  ⟨(C1_from_pretrained_lookup "cifar10-resnet18").2 _ rfl,
   (C1_from_pretrained_lookup "resnet50-imagenet").1.mpr rfl⟩

/-- C3: `AE.step` forwards the image `x` through encoder, then `fc`,
then decoder, in that order, returns as first component the
mean-reduction MSE loss between the reconstruction and `x` (whose value
under any interpretation of the networks is the mean-reduction MSE
formula), returns the log dict `{"loss": loss}` with that same loss, and
never uses the label `y` or the batch index. -/
theorem C3_step_structure (ae : AE) (x y yAlt : TensorExpr) (i iAlt : Int) :
    (ae.step (x, y) i).1 =
      LossExpr.mse_loss (.app ae.decoder (.app ae.fc (.app ae.encoder x))) x "mean" ∧
    (ae.step (x, y) i).2 = [("loss", (ae.step (x, y) i).1)] ∧
    (∀ interp env,
      ((ae.step (x, y) i).1).eval interp env =
        F_mse_loss
          (interp ae.decoder (interp ae.fc (interp ae.encoder (x.eval interp env))))
          (x.eval interp env) "mean") ∧
    ae.step (x, y) i = ae.step (x, yAlt) iAlt :=
  ⟨rfl, rfl, fun _ _ => rfl, rfl⟩

/-- C5: `pretrained_weights_available` returns exactly the keys of the
registry (concretely, the single name `cifar10-resnet18`), and every
registered name is loaded from the URL the registry maps it to. -/
theorem C5_registry (name url : String) :
    AE.pretrained_weights_available = AE.pretrained_urls.map Prod.fst ∧
    AE.pretrained_weights_available = ["cifar10-resnet18"] ∧
    (AE.pretrained_urls.lookup name = some url →
      AE.from_pretrained name = .ok ⟨url, false⟩) := by
  refine ⟨rfl, rfl, fun h => ?_⟩
  simp [AE.from_pretrained, h]

/-- Witness for C5 at the concrete registered name. -/
theorem C5_registry_witness :
    AE.from_pretrained "cifar10-resnet18" =
      .ok ⟨"https://pl-bolts-weights.s3.us-east-2.amazonaws.com/ae/ae-cifar10/checkpoints/epoch%3D96.ckpt",
        false⟩ :=
  (C5_registry "cifar10-resnet18"
    "https://pl-bolts-weights.s3.us-east-2.amazonaws.com/ae/ae-cifar10/checkpoints/epoch%3D96.ckpt").2.2
    rfl

/-- C6: the constructor stores `lr` as `self.lr`, `configure_optimizers`
returns an Adam optimizer over the model's parameters with exactly that
`lr`, and the default is `1e-4` both in the constructor and in the
`--lr` argument registration. -/
theorem C6_lr_wiring (ih : Int) (et : String) (fcv mp : Bool) (eod : Int)
    (kl : ℚ) (ld : Int) (lr : ℚ) :
    (AE.init ih et fcv mp eod kl ld lr).lr = lr ∧
    (AE.init ih et fcv mp eod kl ld lr).configure_optimizers =
      Optimizer.adam (AE.init ih et fcv mp eod kl ld lr).parameters lr ∧
    (AE.init ih).lr = 1/10000 ∧
    ArgSpec.mk "--lr" (.float (1/10000)) ∈ AE.add_model_specific_args [] := by
  refine ⟨rfl, rfl, rfl, ?_⟩
  simp [AE.add_model_specific_args]

/-- C7: after construction with any arguments the model holds an
encoder, a decoder and a linear projection `fc` from `enc_out_dim` to
`latent_dim` features; the decoder is built with the very `latent_dim`
and `input_height` the object stores; and construction is total: it
returns such a model for every `enc_type` string without raising. -/
theorem C7_construction (ih : Int) (et : String) (fcv mp : Bool) (eod : Int)
    (kl : ℚ) (ld : Int) (lr : ℚ) :
    (AE.init ih et fcv mp eod kl ld lr).fc = Network.linear eod ld ∧
    (AE.init ih et fcv mp eod kl ld lr).enc_out_dim = eod ∧
    (AE.init ih et fcv mp eod kl ld lr).latent_dim = ld ∧
    (AE.init ih et fcv mp eod kl ld lr).input_height = ih ∧
    ((AE.init ih et fcv mp eod kl ld lr).encoder = Network.resnet18_encoder fcv mp ∨
     (AE.init ih et fcv mp eod kl ld lr).encoder = Network.resnet50_encoder fcv mp) ∧
    ((AE.init ih et fcv mp eod kl ld lr).decoder = Network.resnet18_decoder ld ih fcv mp ∨
     (AE.init ih et fcv mp eod kl ld lr).decoder = Network.resnet50_decoder ld ih fcv mp) := by
  by_cases h18 : et = "resnet18"
  · subst h18
    exact ⟨rfl, rfl, rfl, rfl, Or.inl rfl, Or.inl rfl⟩
  · by_cases h50 : et = "resnet50"
    · subst h50
      exact ⟨rfl, rfl, rfl, rfl, Or.inr rfl, Or.inr rfl⟩
    · have e18 : (et == "resnet18") = false := beq_eq_false_iff_ne.mpr h18
      have e50 : (et == "resnet50") = false := beq_eq_false_iff_ne.mpr h50
      have hl : valid_encoders.lookup et = none := by
        simp [valid_encoders, List.lookup, e18, e50]
      refine ⟨?_, rfl, rfl, rfl, Or.inl ?_, Or.inl ?_⟩ <;>
        simp [AE.init, hl]

/-- C8 as stated is false: with an unrecognized `enc_type` the built
encoder and decoder equal those of `resnet18`, yet the constructed
object is distinguishable from the `resnet18` one, because
`save_hyperparameters` records the original `enc_type` string. -/
theorem C8_counterexample :
    (AE.init 32 "vgg16").encoder = (AE.init 32 "resnet18").encoder ∧
    (AE.init 32 "vgg16").decoder = (AE.init 32 "resnet18").decoder ∧
    AE.init 32 "vgg16" ≠ AE.init 32 "resnet18" := by
  refine ⟨rfl, rfl, fun h => ?_⟩
  have h2 : ("vgg16" : String) = "resnet18" :=
    congrArg (fun ae => ae.hparams.enc_type) h
  exact absurd h2 (by decide)

/-- C8 amended: for every `enc_type` other than `resnet18` and
`resnet50` the constructor signals no error and silently builds the
resnet18 encoder and decoder, identical to those built for `resnet18`;
the object is not fully indistinguishable from the `resnet18` one,
since its stored hyperparameters keep the unrecognized string. -/
theorem C8_fallback (et : String) (h18 : et ≠ "resnet18") (h50 : et ≠ "resnet50")
    (ih : Int) (fcv mp : Bool) (eod : Int) (kl : ℚ) (ld : Int) (lr : ℚ) :
    (AE.init ih et fcv mp eod kl ld lr).encoder = Network.resnet18_encoder fcv mp ∧
    (AE.init ih et fcv mp eod kl ld lr).decoder = Network.resnet18_decoder ld ih fcv mp ∧
    (AE.init ih et fcv mp eod kl ld lr).encoder =
      (AE.init ih "resnet18" fcv mp eod kl ld lr).encoder ∧
    (AE.init ih et fcv mp eod kl ld lr).decoder =
      (AE.init ih "resnet18" fcv mp eod kl ld lr).decoder ∧
    (AE.init ih et fcv mp eod kl ld lr).hparams.enc_type = et := by
  have e18 : (et == "resnet18") = false := beq_eq_false_iff_ne.mpr h18
  have e50 : (et == "resnet50") = false := beq_eq_false_iff_ne.mpr h50
  refine ⟨?_, ?_, ?_, ?_, rfl⟩ <;>
    simp [AE.init, List.lookup, valid_encoders, e18, e50]

/-- Witness for C8's amended claim at a concrete unrecognized string. -/
theorem C8_fallback_witness :
    (AE.init 32 "vgg16" false false 512 (1/10) 256 (1/10000)).encoder =
      Network.resnet18_encoder false false ∧
    (AE.init 32 "vgg16" false false 512 (1/10) 256 (1/10000)).hparams.enc_type = "vgg16" := by
  have h := C8_fallback "vgg16" (by decide) (by decide) 32 false false 512 (1/10) 256 (1/10000)
  exact ⟨h.1, h.2.2.2.2⟩

/-- C9: `AE.forward` applies only the decoder: `forward z` is the
decoder applied to `z` (under any interpretation of the networks, its
value is the decoder's value on `z`), with no encoder or `fc`
application. -/
theorem C9_forward_is_decoder (ae : AE) (z : TensorExpr) :
    ae.forward z = TensorExpr.app ae.decoder z ∧
    (∀ interp env, (ae.forward z).eval interp env =
      interp ae.decoder (z.eval interp env)) :=
  ⟨rfl, fun _ _ => rfl⟩

/-- C4: `cli_main` selects the data module by the `--dataset` value:
`cifar10`, `stl10` and `imagenet` select the corresponding data-module
class, and any other value makes `cli_main` return the `ValueError`
naming the undefined dataset — an error result that carries no data
module, no model and no trainer, since the dispatch precedes their
construction. -/
theorem C4_dataset_dispatch (args : List String) :
    (parse_dataset args = "cifar10" →
      ∃ r, cli_main args = .ok r ∧ r.dm.cls = .cifar10) ∧
    (parse_dataset args = "stl10" →
      ∃ r, cli_main args = .ok r ∧ r.dm.cls = .stl10) ∧
    (parse_dataset args = "imagenet" →
      ∃ r, cli_main args = .ok r ∧ r.dm.cls = .imagenet) ∧
    (parse_dataset args ≠ "cifar10" → parse_dataset args ≠ "stl10" →
      parse_dataset args ≠ "imagenet" →
      cli_main args = .error (.valueError ("undefined dataset " ++ parse_dataset args))) := by
  refine ⟨fun h => ?_, fun h => ?_, fun h => ?_, fun h1 h2 h3 => ?_⟩
  · exact ⟨cli_main_rest args .cifar10, by simp [cli_main, h], rfl⟩
  · exact ⟨cli_main_rest args .stl10, by simp [cli_main, h], rfl⟩
  · exact ⟨cli_main_rest args .imagenet, by simp [cli_main, h], rfl⟩
  · simp [cli_main, h1, h2, h3]

/-- Witness for C4 at concrete argument lists: `--dataset stl10`
selects the STL10 data module, `--dataset mnist` fails with the
`ValueError`. -/
theorem C4_dataset_dispatch_witness :
    (∃ r, cli_main ["--dataset", "stl10"] = .ok r ∧ r.dm.cls = .stl10) ∧
    cli_main ["--dataset", "mnist"] =
      .error (.valueError ("undefined dataset " ++ parse_dataset ["--dataset", "mnist"])) :=
  ⟨(C4_dataset_dispatch ["--dataset", "stl10"]).2.1 rfl,
   (C4_dataset_dispatch ["--dataset", "mnist"]).2.2.2
     (by decide) (by decide) (by decide)⟩

/-- C10: whenever `cli_main` succeeds, the trainer receives `None` for
`max_steps` exactly when the parsed `--max_steps` value is `-1`, and
receives the parsed value unchanged otherwise; the `--max_steps`
argument is registered with default `-1`. -/
theorem C10_max_steps_rewrite (args : List String) (r : CliResult)
    (h : cli_main args = .ok r) :
    (parse_max_steps args = -1 → r.trainer.max_steps = none) ∧
    (parse_max_steps args ≠ -1 → r.trainer.max_steps = some (parse_max_steps args)) ∧
    ArgSpec.mk "--max_steps" (.int (-1)) ∈ AE.add_model_specific_args [] := by
  have hr : r.trainer.max_steps =
      if parse_max_steps args = -1 then none else some (parse_max_steps args) := by
    simp only [cli_main] at h
    split at h
    · cases h; rfl
    · split at h
      · cases h; rfl
      · split at h
        · cases h; rfl
        · cases h
  refine ⟨fun hm => ?_, fun hm => ?_, ?_⟩
  · rw [hr, if_pos hm]
  · rw [hr, if_neg hm]
  · simp [AE.add_model_specific_args]

/-- Witness for C10: with no `--max_steps` the default `-1` becomes
`None`; with `--max_steps 5` the trainer gets `5`. -/
theorem C10_max_steps_rewrite_witness :
    (cli_main_rest [] .cifar10).trainer.max_steps = none ∧
    (cli_main_rest ["--max_steps", "5"] .cifar10).trainer.max_steps = some 5 := by
  constructor
  · exact (C10_max_steps_rewrite [] (cli_main_rest [] .cifar10) rfl).1 (by decide)
  · have h := (C10_max_steps_rewrite ["--max_steps", "5"]
      (cli_main_rest ["--max_steps", "5"] .cifar10) rfl).2.1 (by decide)
    simpa using h

/-- C2 as stated is false: the unknown-checkpoint `KeyError` is not the
only explicit error in the file; `cli_main` itself raises a `ValueError`
for an undefined dataset, here at the concrete input
`--dataset mnist`. -/
theorem C2_counterexample :
    cli_main ["--dataset", "mnist"] =
      .error (.valueError "undefined dataset mnist") := by
  rfl

/-- C2 amended: the module's own code raises exactly two explicit
errors — `from_pretrained`'s `KeyError` for a checkpoint name missing
from the registry, and `cli_main`'s `ValueError` for an undefined
dataset; every error either operation produces has that exact shape, and
every other operation in the file is total. -/
theorem C2_explicit_errors (name : String) (args : List String) :
    (∀ e, AE.from_pretrained name = .error e →
      e = .keyError (name ++ " not present in pretrained weights.") ∧
      AE.pretrained_urls.lookup name = none) ∧
    (∀ e, cli_main args = .error e →
      e = .valueError ("undefined dataset " ++ parse_dataset args) ∧
      parse_dataset args ≠ "cifar10" ∧ parse_dataset args ≠ "stl10" ∧
      parse_dataset args ≠ "imagenet") := by
  constructor
  · intro e he
    cases hl : AE.pretrained_urls.lookup name with
    | none =>
      refine ⟨?_, rfl⟩
      simp [AE.from_pretrained, hl] at he
      exact he.symm
    | some url => simp [AE.from_pretrained, hl] at he
  · intro e he
    simp only [cli_main] at he
    split at he
    · cases he
    · split at he
      · cases he
      · split at he
        · cases he
        · rename_i h1 h2 h3
          cases he
          exact ⟨rfl, h1, h2, h3⟩

/-- Witness for C2's amended claim at concrete inputs: the unknown
checkpoint name `resnet50-imagenet` yields exactly the `KeyError`, and
`--dataset mnist` yields exactly the `ValueError`. -/
theorem C2_explicit_errors_witness :
    (PyError.keyError "resnet50-imagenet not present in pretrained weights." =
        .keyError ("resnet50-imagenet" ++ " not present in pretrained weights.") ∧
      AE.pretrained_urls.lookup "resnet50-imagenet" = none) ∧
    (PyError.valueError "undefined dataset mnist" =
        .valueError ("undefined dataset " ++ parse_dataset ["--dataset", "mnist"]) ∧
      parse_dataset ["--dataset", "mnist"] ≠ "cifar10" ∧
      parse_dataset ["--dataset", "mnist"] ≠ "stl10" ∧
      parse_dataset ["--dataset", "mnist"] ≠ "imagenet") :=
  ⟨(C2_explicit_errors "resnet50-imagenet" ["--dataset", "mnist"]).1 _ rfl,
   (C2_explicit_errors "resnet50-imagenet" ["--dataset", "mnist"]).2 _ rfl⟩

end BasicAE
